import Mathlib

/-!
Verification development for the TalentScout hiring-assistant core
(`chatbot.py`, `utils.py`).

The Python source is shallowly embedded: pure methods become Lean
functions, the stateful `HiringAssistant` becomes explicit state passing
over an `AssistantState` record, and the external generation service
(Gemini) is abstracted as function parameters (`extract`, `genQ`,
`conclude`), as is the randomness of `random.sample` / `random.shuffle`
(`sample`, `shuffle` parameters constrained by `SampleSpec` /
`ShuffleSpec`).

String conventions: the inputs exercised here are ASCII, so
`str.lower()` / `str.strip()` / `\w` / `\s` are modelled by their ASCII
behaviour.  Python truthiness of an optional string field (`None` and
`""` are falsy) is `optStrTruthy`; `dict.get(k)`-style presence used by
`to_dict()` (which drops only `None`) is `Option.isSome`.
-/

/-! ### ASCII string primitives (Python `lower`, `strip`, `\w`, `\s`) -/

/-- Python `\s` (ASCII): space, tab, newline, carriage return, vertical
tab, form feed. -/
def isPySpace (c : Char) : Bool :=
  c == ' ' || c == '\t' || c == '\n' || c == '\r' || c == '\x0b' || c == '\x0c'

/-- ASCII lower-casing of one character (Python `str.lower` restricted to
ASCII, which covers every input exercised by the claims). -/
def asciiLower (c : Char) : Char :=
  if 'A' ≤ c && c ≤ 'Z' then Char.ofNat (c.toNat + 32) else c

/-- Python `str.lower()` (ASCII fragment). -/
def pyLower (s : String) : String :=
  String.mk (s.toList.map asciiLower)

/-- Python `str.strip()` (ASCII whitespace fragment). -/
def pyStrip (s : String) : String :=
  String.mk (((s.toList.dropWhile isPySpace).reverse.dropWhile isPySpace).reverse)

/-- Python regex `\w` (ASCII): letters, digits, underscore. -/
def isWordChar (c : Char) : Bool :=
  c.isAlphanum || c == '_'

/-! ### The regex fragment used by `HiringAssistant._check_exit_intent`

The exit patterns are all of the two shapes `^word\b` and
`\bword1\s+word2\b` where each word consists of word characters, so the
matcher is specialised to those shapes.  `\s+` may greedily take all
whitespace because the following literal starts with a non-space
character. -/

/-- Match a literal character list as a prefix, returning the remainder. -/
def dropLit : List Char → List Char → Option (List Char)
  | [], l => some l
  | _ :: _, [] => none
  | p :: ps, c :: cs => if c == p then dropLit ps cs else none

/-- `\s+`: require at least one whitespace character, consume the run. -/
def dropSpaces1 : List Char → Option (List Char)
  | [] => none
  | c :: cs => if isPySpace c then some (cs.dropWhile isPySpace) else none

/-- `\b` after a word character: end of input or a non-word character. -/
def boundaryAt : List Char → Bool
  | [] => true
  | c :: _ => !isWordChar c

/-- `word1\s+word2\b` matched at the head of `l`. -/
def phraseAt (w1 w2 : String) (l : List Char) : Bool :=
  match dropLit w1.toList l with
  | none => false
  | some r1 =>
    match dropSpaces1 r1 with
    | none => false
    | some r2 =>
      match dropLit w2.toList r2 with
      | none => false
      | some r3 => boundaryAt r3

/-- Scan for `\bword1\s+word2\b`; `prevWord` records whether the previous
character was a word character (for the leading `\b`). -/
def searchPhraseAux (w1 w2 : String) : Bool → List Char → Bool
  | prevWord, [] => !prevWord && phraseAt w1 w2 []
  | prevWord, c :: cs =>
    (!prevWord && phraseAt w1 w2 (c :: cs)) || searchPhraseAux w1 w2 (isWordChar c) cs

/-- `re.search(r'\bword1\s+word2\b', s)` for word-character words. -/
def searchPhrase (w1 w2 : String) (s : String) : Bool :=
  searchPhraseAux w1 w2 false s.toList

/-- `re.search(r'^word\b', s)` for a word-character word. -/
def startWord (w : String) (s : String) : Bool :=
  match dropLit w.toList s.toList with
  | none => false
  | some r => boundaryAt r

/-- `HiringAssistant._check_exit_intent` (chatbot.py): the exit regex
patterns in source order, then the bare-word list. -/
def check_exit_intent (text : String) : Bool :=
  let tl := pyStrip (pyLower text)
  startWord "bye" tl || startWord "goodbye" tl ||
  searchPhrase "exit" "interview" tl || searchPhrase "quit" "screening" tl ||
  searchPhrase "end" "chat" tl || searchPhrase "end" "conversation" tl ||
  startWord "stop" tl || startWord "exit" tl || startWord "quit" tl ||
  tl == "bye" || tl == "goodbye" || tl == "exit" || tl == "quit" || tl == "stop"

/-! ### `CandidateInfo` (chatbot.py)

Fields are `Option`-valued as in the pydantic model.  `to_dict()` keeps
exactly the fields that are not `None` (`Option.isSome`); the truthiness
tests `data.get(field)` used by `missing_fields` / `is_complete` also
reject `""` and `[]` (`optStrTruthy` / `optListTruthy`). -/

structure CandidateInfo where
  full_name : Option String := none
  email : Option String := none
  phone : Option String := none
  experience_years : Option String := none
  desired_positions : Option (List String) := none
  location : Option String := none
  tech_stack : Option String := none
deriving DecidableEq

/-- Python truthiness of an optional string (`None` and `""` are falsy). -/
def optStrTruthy : Option String → Bool
  | none => false
  | some s => !s.isEmpty

/-- Python truthiness of an optional list (`None` and `[]` are falsy). -/
def optListTruthy : Option (List String) → Bool
  | none => false
  | some l => !l.isEmpty

/-- Python `value or default` for an optional string field. -/
def pyOrStr (v : Option String) (d : String) : String :=
  match v with
  | some s => if s.isEmpty then d else s
  | none => d

/-- `CandidateInfo.completion_percentage`: required fields weigh 15 each,
optional fields 5 each, result capped by `min(_, 100)`.  Presence is
`to_dict()` membership, i.e. the field is not `None`. -/
def CandidateInfo.completion_percentage (c : CandidateInfo) : Nat :=
  min
    (((if c.full_name.isSome then 1 else 0) +
      (if c.email.isSome then 1 else 0) +
      (if c.tech_stack.isSome then 1 else 0)) * 15 +
     ((if c.phone.isSome then 1 else 0) +
      (if c.experience_years.isSome then 1 else 0) +
      (if c.desired_positions.isSome then 1 else 0) +
      (if c.location.isSome then 1 else 0)) * 5)
    100

/-- `CandidateInfo.missing_fields`: required fields first in fixed order;
optional fields are appended only when no required field is missing. -/
def CandidateInfo.missing_fields (c : CandidateInfo) : List String :=
  let requiredMissing :=
    (if optStrTruthy c.full_name then [] else ["full_name"]) ++
    (if optStrTruthy c.email then [] else ["email"]) ++
    (if optStrTruthy c.tech_stack then [] else ["tech_stack"])
  if requiredMissing.isEmpty then
    (if optStrTruthy c.phone then [] else ["phone"]) ++
    (if optStrTruthy c.experience_years then [] else ["experience_years"]) ++
    (if optListTruthy c.desired_positions then [] else ["desired_positions"]) ++
    (if optStrTruthy c.location then [] else ["location"])
  else requiredMissing

/-- `CandidateInfo.is_complete`: all seven fields truthy. -/
def CandidateInfo.is_complete (c : CandidateInfo) : Bool :=
  optStrTruthy c.full_name && optStrTruthy c.email && optStrTruthy c.phone &&
  optStrTruthy c.experience_years && optListTruthy c.desired_positions &&
  optStrTruthy c.location && optStrTruthy c.tech_stack

/-! ### `TechStackParser` (utils.py) -/

namespace TechStackParser

/-- `TechStackParser.CATEGORIES`, in source order. -/
def CATEGORIES : List (String × List String) := [
  ("languages", ["python", "java", "c", "javascript", "typescript", "c++", "c#",
                 "ruby", "go", "rust", "php", "swift", "kotlin"]),
  ("frontend", ["react", "angular", "vue", "svelte", "html", "css", "jquery",
                "bootstrap", "tailwind"]),
  ("backend", ["django", "flask", "spring", "express", "node.js", "laravel",
               "rails", "asp.net"]),
  ("databases", ["sql", "mysql", "postgresql", "mongodb", "redis",
                 "elasticsearch", "cassandra", "oracle"]),
  ("devops", ["docker", "kubernetes", "jenkins", "aws", "azure", "gcp",
              "terraform", "ansible"]),
  ("tools", ["git", "jira", "confluence", "postman", "vscode", "pycharm"])]

/-- Separator class of `re.split(r'[,;\s]+', _)`. -/
def isTechSep (c : Char) : Bool :=
  c == ',' || c == ';' || isPySpace c

/-- Split on runs of separators, dropping empty pieces — the composition of
`re.split(r'[,;\s]+', s)` with the `if t.strip()` filter. -/
def splitOnSeps (p : Char → Bool) (l : List Char) : List String :=
  let step : Char → List Char × List String → List Char × List String :=
    fun c acc =>
      if p c then ([], if acc.1.isEmpty then acc.2 else String.mk acc.1 :: acc.2)
      else (c :: acc.1, acc.2)
  let r := l.foldr step ([], [])
  if r.1.isEmpty then r.2 else String.mk r.1 :: r.2

/-- Tokenisation in `TechStackParser.parse`: lowercase, split on commas,
semicolons and whitespace. -/
def tokenize (s : String) : List String :=
  splitOnSeps isTechSep (pyLower s).toList

/-- Boolean list-prefix test. -/
def isPrefixB : List Char → List Char → Bool
  | [], _ => true
  | _ :: _, [] => false
  | a :: as, b :: bs => a == b && isPrefixB as bs

/-- Boolean contiguous-sublist test: Python's `needle in haystack` on
strings, over character lists. -/
def isInfixB (needle : List Char) : List Char → Bool
  | [] => isPrefixB needle []
  | b :: bs => isPrefixB needle (b :: bs) || isInfixB needle bs

/-- The matching rule of `TechStackParser.parse`: keywords of length ≤ 2
require exact token equality; longer keywords match by substring in either
direction. -/
def keywordMatch (tech keyword : String) : Bool :=
  if keyword.length ≤ 2 then tech == keyword
  else isInfixB keyword.toList tech.toList || isInfixB tech.toList keyword.toList

/-- `TechStackParser.parse`: category map over the tokens, then an "other"
bucket for uncategorised tokens.  Python's `list(set(found))` is modelled
by `List.dedup` (same members; iteration order of a CPython `set` is not
part of the semantics relied on, so the theorems below only use
membership). -/
def parse (tech_stack_str : String) : List (String × List String) :=
  let techs := tokenize tech_stack_str
  let cats :=
    (CATEGORIES.map (fun ck =>
      (ck.1, (techs.filter (fun t => ck.2.any (fun k => keywordMatch t k))).dedup))).filter
      (fun ck => !ck.2.isEmpty)
  let all_categorized := cats.foldr (fun ck acc => ck.2 ++ acc) []
  let uncategorized := techs.filter (fun t => !all_categorized.contains t)
  if uncategorized.isEmpty then cats else cats ++ [("other", uncategorized)]

/-- The token list `parse` records for one category (`[]` when the category
is absent from the result). -/
def parseCategory (tech_stack_str category : String) : List String :=
  (List.lookup category (parse tech_stack_str)).getD []

/-- Digit string to number. -/
def digitsVal (ds : List Char) : Nat :=
  ds.foldl (fun a c => a * 10 + (c.toNat - 48)) 0

/-- CPython `float()` restricted to plain decimal numerals: surrounding
whitespace, an optional sign, digits with an optional fractional part.
Exponent, `inf`/`nan` and underscore forms are outside the fragment the
claims exercise; the value is exact (`ℚ`) rather than double-rounded. -/
def parseFloat? (s : String) : Option ℚ :=
  let l := (pyStrip s).toList
  let sr : ℚ × List Char :=
    match l with
    | '-' :: r => (-1, r)
    | '+' :: r => (1, r)
    | _ => (1, l)
  let intDs := sr.2.takeWhile Char.isDigit
  let rest1 := sr.2.dropWhile Char.isDigit
  match rest1 with
  | [] => if intDs.isEmpty then none else some (sr.1 * digitsVal intDs)
  | '.' :: rest2 =>
    let fracDs := rest2.takeWhile Char.isDigit
    let rest3 := rest2.dropWhile Char.isDigit
    if rest3.isEmpty && !(intDs.isEmpty && fracDs.isEmpty) then
      some (sr.1 * ((digitsVal intDs : ℚ) + (digitsVal fracDs : ℚ) / (10 : ℚ) ^ fracDs.length))
    else none
  | _ => none

/-- `TechStackParser.get_difficulty_level`: `years = float(experience) if
experience else 0` (so a falsy — absent/empty — experience is 0 years),
tiers at 2 and 5 years, and the `except` branch yields "intermediate". -/
def get_difficulty_level (tech_stack experience : String) : String :=
  match (if experience == "" then some 0 else parseFloat? experience) with
  | none => "intermediate"
  | some years =>
    if years < 2 then "beginner"
    else if years < 5 then "intermediate"
    else "advanced"

end TechStackParser

/-! ### `HiringAssistant._get_enhanced_fallback_questions` (chatbot.py)

The static fallback question pools, transcribed verbatim.  `random.sample`
and `random.shuffle` are abstracted as the `sample` / `shuffle`
parameters; `SampleSpec` and `ShuffleSpec` state their contracts. -/

/-- A value of the Python `fallback_map` dict: either difficulty-tiered
question pools, or a string alias to another key. -/
inductive FallbackEntry where
  | pools (tiers : List (String × List String))
  | aliasOf (target : String)
deriving DecidableEq

/-- Python questions: `fallback_map['python']['beginner']`. -/
def pythonBeginner : List String := [
  "Explain the difference between lists and tuples in Python and when to use each.",
  "What are Python decorators and how do you use them with a practical example?",
  "How do you handle multiple exceptions in a single try-except block?",
  "Explain list comprehensions and how they differ from traditional for-loops.",
  "What is the difference between '==' (equality) and 'is' (identity) in Python?",
  "What is a 'lambda' function in Python and what are its limitations?",
  "Explain the concept of 'duck typing' in Python.",
  "How do you use the 'with' statement for file handling and why is it preferred?",
  "What are f-strings and how do they compare to older string formatting methods?",
  "Explain the use of 'self' in Python classes."]

/-- Python questions: `fallback_map['python']['intermediate']`. -/
def pythonIntermediate : List String := [
  "Explain how Python handles memory management and the role of the ref-count.",
  "What is the Global Interpreter Lock (GIL) and how does it impact multi-core CPU usage?",
  "Describe generators and the 'yield' keyword. How do they save memory?",
  "How do you implement a custom context manager using the '__enter__' and '__exit__' methods?",
  "Explain Method Resolution Order (MRO) and the 'super()' function in complex inheritance.",
  "What are 'args' and 'kwargs' and when should you use them in function definitions?",
  "Describe the difference between shallow copy and deep copy in Python.",
  "What is the purpose of the '__init__.py' file in a Python package?",
  "Explain how @property decorators work for getter/setter logic.",
  "What is the difference between a class method and a static method?"]

/-- Python questions: `fallback_map['python']['advanced']`. -/
def pythonAdvanced : List String := [
  "Explain Python's metaclasses and provide a real-world use case for them.",
  "How does Python's 'asyncio' event loop work? Compare it with the threading module.",
  "Describe the 'descriptor' protocol and how things like @property are implemented under the hood.",
  "How would you profile and optimize a memory-intensive Python application?",
  "Explain the internal implementation of Python dictionaries (hash tables).",
  "What are 'slots' in Python classes and how do they impact performance?",
  "Describe the difference between '__getattr__' and '__getattribute__'.",
  "How do you handle cyclic references in Python's garbage collector?",
  "Explain the concept of 'monkey patching' and its potential risks.",
  "Describe how you would implement a singleton pattern in a thread-safe way in Python."]

/-- JavaScript questions: `fallback_map['javascript']['any']`. -/
def javascriptAny : List String := [
  "Explain closures in JavaScript with a practical example.",
  "What's the difference between '==' and '==='? When would you use each?",
  "Describe how the event loop works in JavaScript.",
  "What are promises and async/await? How do they help?",
  "Explain prototypal inheritance in JavaScript.",
  "What is 'this' keyword in JavaScript and how does it change context?",
  "Explain the difference between var, let, and const.",
  "What are arrow functions and how do they differ from regular functions?",
  "Explain event delegation in JavaScript.",
  "What is hoisting in JavaScript?"]

/-- React questions: `fallback_map['react']['any']`. -/
def reactAny : List String := [
  "Explain the virtual DOM and its benefits in React.",
  "What are React hooks? Explain useState and useEffect with examples.",
  "Describe the component lifecycle in React.",
  "How do you manage state in large React applications (Redux, Context, etc.)?",
  "What's the difference between controlled and uncontrolled components?",
  "What is React.memo() and when should you use it?",
  "Explain the concept of 'lifting state up' in React.",
  "What are Higher-Order Components (HOCs) in React?",
  "How does React handle reconciliation?",
  "What is the purpose of 'keys' in React lists?"]

/-- Java questions: `fallback_map['java']['any']`. -/
def javaAny : List String := [
  "Explain the principles of OOP and how Java implements them.",
  "What's the difference between abstract classes and interfaces?",
  "How does garbage collection work in Java?",
  "Explain multithreading in Java and synchronization.",
  "What are Java Streams and how do they improve processing?",
  "What is the difference between JRE, JDK, and JVM?",
  "Explain the 'final' keyword in Java as applied to variables, methods, and classes.",
  "What are Checked and Unchecked exceptions in Java?",
  "Describe the difference between HashMap and Hashtable.",
  "What is the purpose of the 'volatile' keyword in Java?"]

/-- HTML questions: `fallback_map['html']['any']`. -/
def htmlAny : List String := [
  "What is Semantic HTML and why is it important for accessibility and SEO?",
  "Explain the difference between block, inline, and inline-block elements.",
  "What are data attributes and how are they used in modern development?",
  "Describe the purpose of the <head> element and the common tags inside it.",
  "How do you optimize an HTML page for mobile responsiveness?",
  "What is the difference between <div> and <span>?",
  "Explain the importance of the <!DOCTYPE html> declaration.",
  "How do you use <picture> and <source> tags for responsive images?",
  "What is the purpose of the 'alt' attribute in <img> tags?",
  "Explain the difference between LocalStorage, SessionStorage, and Cookies."]

/-- CSS questions: `fallback_map['css']['any']`. -/
def cssAny : List String := [
  "Explain the CSS box model.",
  "What's the difference between Flexbox and CSS Grid?",
  "Describe different CSS positioning methods (static, relative, absolute, fixed).",
  "How do CSS selectors' specificity work?",
  "What are CSS variables and how do you use them?"]

/-- C questions: `fallback_map['c']['any']`. -/
def cAny : List String := [
  "Explain pointers and memory management in C.",
  "What's the difference between stack and heap memory allocation?",
  "Describe the purpose of the 'static' keyword in C.",
  "How do you handle error situations in C programming?",
  "Explain the difference between a structure and a union."]

/-- `fallback_map` in dict insertion (= iteration) order. -/
def fallback_map : List (String × FallbackEntry) := [
  ("python", .pools [("beginner", pythonBeginner), ("intermediate", pythonIntermediate),
                     ("advanced", pythonAdvanced)]),
  ("javascript", .pools [("any", javascriptAny)]),
  ("js", .aliasOf "javascript"),
  ("react", .pools [("any", reactAny)]),
  ("java", .pools [("any", javaAny)]),
  ("html", .pools [("any", htmlAny)]),
  ("css", .pools [("any", cssAny)]),
  ("c", .pools [("any", cAny)])]

/-- Pool selection for a matched entry: `q_data[difficulty]` when present,
else `q_data.get('any', q_data.get('intermediate', list(q_data.values())[0]))`. -/
def pickPool (tiers : List (String × List String)) (difficulty : String) : List String :=
  match List.lookup difficulty tiers with
  | some pool => pool
  | none =>
    match List.lookup "any" tiers with
    | some pool => pool
    | none =>
      match List.lookup "intermediate" tiers with
      | some pool => pool
      | none => (tiers.headD ("", [])).2

/-- Alias resolution: `fallback_map[q_data]` followed by the
`isinstance(q_data, dict)` check (a non-dict result lets the loop
continue; every alias in the source resolves to a dict). -/
def resolveEntry (e : FallbackEntry) : Option (List (String × List String)) :=
  match e with
  | .pools tiers => some tiers
  | .aliasOf target =>
    match List.lookup target fallback_map with
    | some (.pools tiers) => some tiers
    | _ => none

/-- The `for key, q_data in fallback_map.items()` loop: first key that is a
substring of the lowered tech-stack string and resolves to a dict wins. -/
def findPool (difficulty tsl : String) : List (String × FallbackEntry) → Option (List String)
  | [] => none
  | (key, entry) :: rest =>
    if TechStackParser.isInfixB key.toList tsl.toList then
      match resolveEntry entry with
      | some tiers => some (pickPool tiers difficulty)
      | none => findPool difficulty tsl rest
    else findPool difficulty tsl rest

/-- The generic templated questions (`defaults` in the source), in source
order, parameterised by the tech-stack string. -/
def default_questions (tech_stack : String) : List String := [
  "Describe your overall experience with " ++ tech_stack ++ ". What significant projects have you delivered?",
  "What's the most challenging technical problem you've solved using " ++ tech_stack ++ "?",
  "How do you stay updated with the latest developments in " ++ tech_stack ++ "?",
  "Explain a complex concept in " ++ tech_stack ++ " as if you were mentoring a junior developer.",
  "What best practices and architectural patterns do you prioritize when working with " ++ tech_stack ++ "?",
  "Describe a situation where you had to debug a complex " ++ tech_stack ++ " issue.",
  "How do you approach performance optimization in " ++ tech_stack ++ "?"]

/-- Contract of `random.sample(pool, k)` (`k ≤ len(pool)` at every call
site): `k` elements drawn from the pool. -/
def SampleSpec (sample : List String → Nat → List String) : Prop :=
  ∀ l k, (sample l k).length = min k l.length ∧ ∀ x ∈ sample l k, x ∈ l

/-- Contract of `random.shuffle`: a permutation of the input. -/
def ShuffleSpec (shuffle : List String → List String) : Prop :=
  ∀ l, (shuffle l).Perm l

/-- `HiringAssistant._get_enhanced_fallback_questions`: matched pool →
`random.sample(pool, min(3, len(pool)))`; otherwise shuffle the generic
templates and take the first 3. -/
def get_enhanced_fallback_questions (sample : List String → Nat → List String)
    (shuffle : List String → List String) (tech_stack difficulty : String) : List String :=
  let tsl := pyLower tech_stack
  match findPool difficulty tsl fallback_map with
  | some pool => sample pool (min 3 pool.length)
  | none => (shuffle (default_questions tech_stack)).take 3

/-- A deterministic instance of the `random.sample` contract: take from the
front. -/
def sampleTake : List String → Nat → List String := fun l k => l.take k

/-- A deterministic instance of the `random.shuffle` contract: the identity
permutation. -/
def shuffleId : List String → List String := id

/-! ### `HiringAssistant` state machine (chatbot.py)

`process_message` is embedded as a pure state transformer.  The Gemini
collaborators are parameters: `extract` is the profile update performed by
`_extract_info`, `genQ` the question list built by
`_generate_technical_questions`, and `conclude` the model-generated
non-early conclusion of `_get_conclusion`.  History entries are
(role, content) pairs. -/

structure AssistantState where
  candidate_data : CandidateInfo
  conversation_phase : String
  questions : List String
  current_question_index : Nat
  conversation_history : List (String × String)

/-- `self.phase_questions`, in source order. -/
def phase_questions : List (String × String) := [
  ("full_name", "What is your full name?"),
  ("email", "What's your email address?"),
  ("phone", "And your phone number?"),
  ("experience_years", "How many years of professional experience do you have?"),
  ("desired_positions", "What position(s) are you interested in?"),
  ("location", "Where are you currently located?"),
  ("tech_stack", "Please list your tech stack (programming languages, frameworks, databases, and tools you're proficient in):")]

/-- Python `field.replace('_', ' ')`. -/
def underscoreToSpace (s : String) : String :=
  String.mk (s.toList.map (fun c => if c == '_' then ' ' else c))

/-- `HiringAssistant._get_next_question`: the question for the first
missing field, `phase_questions` first, then the generated phrasing. -/
def get_next_question (c : CandidateInfo) : String :=
  match c.missing_fields with
  | [] => "Is there anything else you'd like to add about your experience or tech stack?"
  | next_field :: _ =>
    match List.lookup next_field phase_questions with
    | some q => q
    | none => "Could you provide your " ++ underscoreToSpace next_field ++ "?"

/-- `HiringAssistant._get_conclusion(early=True)`: the deterministic
early-exit conclusion (no model call). -/
def earlyConclusionText (c : CandidateInfo) : String :=
  "Thank you for your time today, " ++ pyOrStr c.full_name "there" ++
  "! Our team will review the information shared. We'll be in touch soon regarding next steps. Have a great day!"

/-- The intro emitted by `_generate_technical_questions` once the question
list `qs` is built (`self.questions[0]` is in bounds at every source call:
the list is never left empty there). -/
def questioningIntro (tech_stack : String) (qs : List String) : String :=
  "Excellent. Based on your profile, I've prepared a technical assessment to discuss your expertise in **" ++
  tech_stack ++ "**.\n\n" ++ "I have " ++ toString qs.length ++
  " questions for you, covering each of these areas. Let's begin.\n\n" ++
  "**Question 1:** " ++ qs.getD 0 ""

/-- `HiringAssistant._get_fallback_response` (the unexpected-phase route). -/
def get_fallback_response (st : AssistantState) : String :=
  if st.conversation_phase == "InfoGathering" then
    match st.candidate_data.missing_fields with
    | [] => "Thank you for that. Let's continue with the next question."
    | f :: _ => "I'm still collecting your information. Could you please provide your " ++
        underscoreToSpace f ++ "?"
  else if st.conversation_phase == "Questioning" then
    "We're on question " ++ toString (st.current_question_index + 1) ++ " of " ++
    toString st.questions.length ++ ". Could you please answer the current question?"
  else "I'm here to help with your initial screening. Could you please provide the information I asked for?"

/-- The phase-routing block of `process_message` (after exit check and
extraction).  The Questioning index guard compares over `Int` to mirror
Python's `len(self.questions) - 1`. -/
def phaseDispatch (genQ : CandidateInfo → List String) (conclude : CandidateInfo → String)
    (st : AssistantState) : AssistantState × String :=
  if st.conversation_phase = "Greeting" then
    ({ st with conversation_phase := "InfoGathering" },
     "Nice to meet you, " ++ pyOrStr st.candidate_data.full_name "there" ++
     "! I'll guide you through the screening process.\n\n" ++ get_next_question st.candidate_data)
  else if st.conversation_phase = "InfoGathering" then
    if st.candidate_data.is_complete then
      let qs := genQ st.candidate_data
      ({ st with conversation_phase := "Questioning", questions := qs,
                 current_question_index := 0 },
       questioningIntro (pyOrStr st.candidate_data.tech_stack "various technologies") qs)
    else (st, get_next_question st.candidate_data)
  else if st.conversation_phase = "Questioning" then
    if (st.current_question_index : Int) < (st.questions.length : Int) - 1 then
      ({ st with current_question_index := st.current_question_index + 1 },
       "Great answer! Next question:\n\n**Question " ++ toString (st.current_question_index + 2) ++
       ":** " ++ st.questions.getD (st.current_question_index + 1) "")
    else ({ st with conversation_phase := "Conclusion" }, conclude st.candidate_data)
  else if st.conversation_phase = "Conclusion" then
    (st, conclude st.candidate_data)
  else (st, get_fallback_response st)

/-- `HiringAssistant.process_message`: append the user message, check exit
intent (early conclusion returns before extraction, dispatch and the
assistant-history append), else extract, dispatch on phase, and append the
response. -/
def process_message (extract : CandidateInfo → CandidateInfo)
    (genQ : CandidateInfo → List String) (conclude : CandidateInfo → String)
    (st : AssistantState) (user_input : String) : AssistantState × String :=
  let st1 := { st with conversation_history := st.conversation_history ++ [("user", user_input)] }
  if check_exit_intent user_input then
    (st1, earlyConclusionText st1.candidate_data)
  else
    let st2 := { st1 with candidate_data := extract st1.candidate_data }
    let pr := phaseDispatch genQ conclude st2
    ({ pr.1 with conversation_history := pr.1.conversation_history ++ [("assistant", pr.2)] },
     pr.2)

/-- Position of a phase in the linear order `Greeting → InfoGathering →
Questioning → Conclusion` (any other string, unreachable in a session,
ranks lowest). -/
def phaseRank (phase : String) : Nat :=
  if phase = "Greeting" then 0
  else if phase = "InfoGathering" then 1
  else if phase = "Questioning" then 2
  else if phase = "Conclusion" then 3
  else 0

/-! ### Concrete profiles and states used by witnesses and counterexamples -/

/-- The profile of a fresh session (`CandidateInfo()`). -/
def emptyProfile : CandidateInfo := {}

/-- A profile with exactly the three required fields populated. -/
def profileRequiredOnly : CandidateInfo :=
  { full_name := some "John Smith", email := some "john@x.com", tech_stack := some "python" }

/-- A fully populated profile (all seven fields truthy). -/
def profileFull : CandidateInfo :=
  { full_name := some "John Smith", email := some "john@x.com", phone := some "1234567890",
    experience_years := some "3", desired_positions := some ["Backend Developer"],
    location := some "Berlin", tech_stack := some "python" }

/-- A profile missing the required `email` (and everything else but the
name). -/
def profileNoEmail : CandidateInfo :=
  { full_name := some "John Smith" }

/-- A fresh-session state in the Greeting phase. -/
def stGreeting : AssistantState :=
  { candidate_data := emptyProfile, conversation_phase := "Greeting", questions := [],
    current_question_index := 0, conversation_history := [] }

/-- An InfoGathering state whose profile has exactly the required fields. -/
def stInfoRequired : AssistantState :=
  { candidate_data := profileRequiredOnly, conversation_phase := "InfoGathering",
    questions := [], current_question_index := 0, conversation_history := [] }

/-- An InfoGathering state with a fully populated profile. -/
def stInfoFull : AssistantState :=
  { candidate_data := profileFull, conversation_phase := "InfoGathering",
    questions := [], current_question_index := 0, conversation_history := [] }

/-- A Questioning state at question index 1 of 5. -/
def stQuestioning5 : AssistantState :=
  { candidate_data := profileFull, conversation_phase := "Questioning",
    questions := ["q1?", "q2?", "q3?", "q4?", "q5?"], current_question_index := 1,
    conversation_history := [] }

/-- Field-wise profile extension: every field present (`to_dict()`
membership) in `p` is present in `q`. -/
def fieldsSubset (p q : CandidateInfo) : Prop :=
  (p.full_name.isSome = true → q.full_name.isSome = true) ∧
  (p.email.isSome = true → q.email.isSome = true) ∧
  (p.phone.isSome = true → q.phone.isSome = true) ∧
  (p.experience_years.isSome = true → q.experience_years.isSome = true) ∧
  (p.desired_positions.isSome = true → q.desired_positions.isSome = true) ∧
  (p.location.isSome = true → q.location.isSome = true) ∧
  (p.tech_stack.isSome = true → q.tech_stack.isSome = true)

/-- A usable fallback pool: at least 3 questions, none empty. -/
def poolOkB (p : List String) : Bool :=
  decide (3 ≤ p.length) && p.all (fun q => !q.isEmpty)

/-- Every pool of a `fallback_map` entry is usable (aliases hold no pools). -/
def entryOkB : FallbackEntry → Bool
  | .pools tiers => !tiers.isEmpty && tiers.all (fun t => poolOkB t.2)
  | .aliasOf _ => true

/-! ### Helper lemmas -/

theorem boolInd_le_one (a : Bool) : (if a then (1 : Nat) else 0) ≤ 1 := by
  cases a <;> simp

theorem boolInd_mono {a b : Bool} (h : a = true → b = true) :
    (if a then (1 : Nat) else 0) ≤ (if b then 1 else 0) := by
  cases a <;> cases b <;> simp_all

theorem str_eq_empty_of_length_eq_zero {s : String} (h : s.length = 0) : s = "" := by
  cases s with
  | mk data =>
    simp only [String.length] at h
    rw [List.length_eq_zero] at h
    subst h
    rfl

theorem append_ne_empty_left (a b : String) (h : a ≠ "") : a ++ b ≠ "" := by
  intro hab
  apply h
  have hl := congrArg String.length hab
  rw [String.length_append] at hl
  have h0 : a.length = 0 := by
    have : String.length "" = 0 := rfl
    omega
  exact str_eq_empty_of_length_eq_zero h0

theorem lookup_mem {β : Type} {k : String} {v : β} :
    ∀ {l : List (String × β)}, List.lookup k l = some v → v ∈ l.map Prod.snd := by
  intro l
  induction l with
  | nil => intro h; simp [List.lookup] at h
  | cons hd tl ih =>
    intro h
    obtain ⟨k', v'⟩ := hd
    rw [List.lookup] at h
    by_cases hk : (k == k') = true
    · rw [hk] at h
      simp only [Option.some.injEq] at h
      subst h
      simp
    · rw [Bool.not_eq_true] at hk
      rw [hk] at h
      simpa using Or.inr (ih h)

/-! ### Claim C5 -/

/-- C5: `completion_percentage()` is monotonically non-decreasing as
profile fields are added, never exceeds 100, and equals exactly 45 on a
profile with only `full_name`, `email` and `tech_stack` set (required
fields weigh 15 points each, optional 5, capped at 100). -/
theorem C5_completion_monotone_bounded_45 :
    (∀ p q : CandidateInfo, fieldsSubset p q →
      p.completion_percentage ≤ q.completion_percentage) ∧
    (∀ p : CandidateInfo, p.completion_percentage ≤ 100) ∧
    profileRequiredOnly.completion_percentage = 45 := by
  refine ⟨?_, ?_, by decide⟩
  · intro p q h
    obtain ⟨h1, h2, h3, h4, h5, h6, h7⟩ := h
    unfold CandidateInfo.completion_percentage
    refine min_le_min ?_ le_rfl
    have e1 := boolInd_mono h1
    have e2 := boolInd_mono h2
    have e3 := boolInd_mono h3
    have e4 := boolInd_mono h4
    have e5 := boolInd_mono h5
    have e6 := boolInd_mono h6
    have e7 := boolInd_mono h7
    omega
  · intro p
    unfold CandidateInfo.completion_percentage
    exact min_le_right _ _

/-- C5 witness: the hypotheses of the monotonicity part hold at the
concrete pair (empty profile, required-only profile). -/
theorem C5_witness :
    fieldsSubset emptyProfile profileRequiredOnly ∧
    emptyProfile.completion_percentage ≤ profileRequiredOnly.completion_percentage :=
  ⟨by unfold fieldsSubset; decide,
   C5_completion_monotone_bounded_45.1 emptyProfile profileRequiredOnly
     (by unfold fieldsSubset; decide)⟩

/-! ### Claim C10 -/

/-- C10: `completion_percentage()` never exceeds 65 (3 required fields at
15 points plus 4 optional fields at 5 points); the `min(_, 100)` cap is
unreachable, and a fully populated profile reports exactly 65. -/
theorem C10_completion_at_most_65 :
    (∀ p : CandidateInfo, p.completion_percentage ≤ 65) ∧
    profileFull.completion_percentage = 65 := by
  refine ⟨?_, by decide⟩
  intro p
  unfold CandidateInfo.completion_percentage
  refine le_trans (min_le_left _ _) ?_
  have e1 := boolInd_le_one p.full_name.isSome
  have e2 := boolInd_le_one p.email.isSome
  have e3 := boolInd_le_one p.tech_stack.isSome
  have e4 := boolInd_le_one p.phone.isSome
  have e5 := boolInd_le_one p.experience_years.isSome
  have e6 := boolInd_le_one p.desired_positions.isSome
  have e7 := boolInd_le_one p.location.isSome
  omega

/-! ### Claim C6 -/

/-- C6: `missing_fields()` on an empty profile is exactly
`[full_name, email, tech_stack]`; with the three required fields set it
lists exactly the still-missing optional fields in the order
`[phone, experience_years, desired_positions, location]` (all four when
none is set); and when some required field is missing the result contains
only required field names. -/
theorem C6_missing_fields_order :
    emptyProfile.missing_fields = ["full_name", "email", "tech_stack"] ∧
    profileRequiredOnly.missing_fields =
      ["phone", "experience_years", "desired_positions", "location"] ∧
    (∀ c : CandidateInfo, optStrTruthy c.full_name = true → optStrTruthy c.email = true →
      optStrTruthy c.tech_stack = true →
      c.missing_fields =
        (if optStrTruthy c.phone then [] else ["phone"]) ++
        (if optStrTruthy c.experience_years then [] else ["experience_years"]) ++
        (if optListTruthy c.desired_positions then [] else ["desired_positions"]) ++
        (if optStrTruthy c.location then [] else ["location"])) ∧
    (∀ c : CandidateInfo,
      (optStrTruthy c.full_name = false ∨ optStrTruthy c.email = false ∨
        optStrTruthy c.tech_stack = false) →
      ∀ f ∈ c.missing_fields, f ∈ (["full_name", "email", "tech_stack"] : List String)) := by
  refine ⟨by decide, by decide, ?_, ?_⟩
  · intro c h1 h2 h3
    simp [CandidateInfo.missing_fields, h1, h2, h3]
  · intro c hdisj f hmem
    by_cases h1 : optStrTruthy c.full_name <;> by_cases h2 : optStrTruthy c.email <;>
      by_cases h3 : optStrTruthy c.tech_stack <;>
      simp_all [CandidateInfo.missing_fields] <;> tauto

/-- C6 witness: the hypotheses of the two universally quantified parts hold
at concrete profiles (required-only, and name-only). -/
theorem C6_witness :
    profileRequiredOnly.missing_fields =
      (if optStrTruthy profileRequiredOnly.phone then [] else ["phone"]) ++
      (if optStrTruthy profileRequiredOnly.experience_years then [] else ["experience_years"]) ++
      (if optListTruthy profileRequiredOnly.desired_positions then [] else ["desired_positions"]) ++
      (if optStrTruthy profileRequiredOnly.location then [] else ["location"]) ∧
    "email" ∈ (["full_name", "email", "tech_stack"] : List String) :=
  ⟨C6_missing_fields_order.2.2.1 profileRequiredOnly (by decide) (by decide) (by decide),
   C6_missing_fields_order.2.2.2 profileNoEmail (Or.inr (Or.inl (by decide))) "email" (by decide)⟩

/-! ### Claim C7 -/

/-- C7: the exit-intent detector accepts "bye", "quit", "STOP" and
"I need to exit interview now", and rejects both "I am quite bored" and
"byebye" (word-boundary matching, no mid-word matches). -/
theorem C7_exit_intent_examples :
    check_exit_intent "bye" = true ∧ check_exit_intent "quit" = true ∧
    check_exit_intent "STOP" = true ∧
    check_exit_intent "I need to exit interview now" = true ∧
    check_exit_intent "I am quite bored" = false ∧
    check_exit_intent "byebye" = false := by
  exact ⟨by decide, by decide, by decide, by decide, by decide, by decide⟩

/-! ### Engine lemmas -/

/-- On exit intent, `process_message` returns before extraction and
dispatch: only the user message is appended to history, and the
deterministic early conclusion is the response. -/
theorem process_message_exit (extract : CandidateInfo → CandidateInfo)
    (genQ : CandidateInfo → List String) (conclude : CandidateInfo → String)
    (st : AssistantState) (input : String) (h : check_exit_intent input = true) :
    process_message extract genQ conclude st input =
      ({ st with conversation_history := st.conversation_history ++ [("user", input)] },
       earlyConclusionText st.candidate_data) := by
  unfold process_message
  rw [h]
  simp

/-- The phase after dispatching in InfoGathering is decided by
`is_complete` on the (post-extraction) profile. -/
theorem phaseDispatch_infoGathering (genQ : CandidateInfo → List String)
    (conclude : CandidateInfo → String) (st : AssistantState)
    (h : st.conversation_phase = "InfoGathering") :
    (phaseDispatch genQ conclude st).1.conversation_phase =
      (if st.candidate_data.is_complete then "Questioning" else "InfoGathering") := by
  unfold phaseDispatch
  rw [h]
  by_cases hc : st.candidate_data.is_complete <;> simp [hc, h]

/-- Dispatch never decreases the phase rank. -/
theorem phaseDispatch_rank_mono (genQ : CandidateInfo → List String)
    (conclude : CandidateInfo → String) (st : AssistantState) :
    phaseRank st.conversation_phase ≤
      phaseRank (phaseDispatch genQ conclude st).1.conversation_phase := by
  unfold phaseDispatch
  by_cases h1 : st.conversation_phase = "Greeting"
  · simp [h1, phaseRank]
  · by_cases h2 : st.conversation_phase = "InfoGathering"
    · by_cases hc : st.candidate_data.is_complete <;> simp [h1, h2, hc, phaseRank]
    · by_cases h3 : st.conversation_phase = "Questioning"
      · by_cases hi : (st.current_question_index : Int) < (st.questions.length : Int) - 1 <;>
          simp [h1, h2, h3, hi, phaseRank]
      · by_cases h4 : st.conversation_phase = "Conclusion" <;>
          simp [h1, h2, h3, h4, phaseRank]

/-! ### Claim C1 -/

/-- C1 (amended): a message processed in the InfoGathering phase moves the
session to Questioning exactly when the post-extraction profile satisfies
`is_complete()`, which requires all seven fields (the three required ones
alone are not sufficient: optional fields must be populated too). -/
theorem C1_transition_requires_all_seven
    (extract : CandidateInfo → CandidateInfo) (genQ : CandidateInfo → List String)
    (conclude : CandidateInfo → String) (st : AssistantState) (input : String)
    (hphase : st.conversation_phase = "InfoGathering")
    (hexit : check_exit_intent input = false) :
    (process_message extract genQ conclude st input).1.conversation_phase = "Questioning" ↔
      (extract st.candidate_data).is_complete = true := by
  by_cases hc : (extract st.candidate_data).is_complete = true <;>
    simp [process_message, phaseDispatch, hexit, hphase, hc]

/-- C1 witness: with a fully populated profile the hypotheses hold and the
transition to Questioning happens. -/
theorem C1_transition_witness :
    stInfoFull.conversation_phase = "InfoGathering" ∧ check_exit_intent "ok" = false ∧
    (process_message id (fun _ => []) (fun _ => "") stInfoFull "ok").1.conversation_phase =
      "Questioning" :=
  ⟨rfl, by decide,
   (C1_transition_requires_all_seven id (fun _ => []) (fun _ => "") stInfoFull "ok" rfl
     (by decide)).mpr (by decide)⟩

/-- C1 counterexample: in InfoGathering with exactly the three required
fields populated and every optional field unset, processing a message does
not transition to Questioning — the phase stays InfoGathering, refuting
the claim that the three required fields suffice. -/
theorem C1_counterexample_required_only_stays :
    optStrTruthy stInfoRequired.candidate_data.full_name = true ∧
    optStrTruthy stInfoRequired.candidate_data.email = true ∧
    optStrTruthy stInfoRequired.candidate_data.tech_stack = true ∧
    stInfoRequired.candidate_data.phone = none ∧
    stInfoRequired.candidate_data.experience_years = none ∧
    stInfoRequired.candidate_data.desired_positions = none ∧
    stInfoRequired.candidate_data.location = none ∧
    stInfoRequired.conversation_phase = "InfoGathering" ∧
    check_exit_intent "hello" = false ∧
    (process_message id (fun _ => []) (fun _ => "") stInfoRequired "hello").1.conversation_phase =
      "InfoGathering" := by
  decide

/-! ### Claim C4 -/

/-- C4 (amended): a message matching exit intent pre-empts every phase —
the deterministic early-conclusion response is returned and processing
stops — but the session's phase is left unchanged rather than set to
Conclusion; independently, no processed message ever moves the phase
backwards in the order Greeting → InfoGathering → Questioning →
Conclusion. -/
theorem C4_exit_preemption_phase_unchanged :
    (∀ (extract : CandidateInfo → CandidateInfo) (genQ : CandidateInfo → List String)
      (conclude : CandidateInfo → String) (st : AssistantState) (input : String),
      check_exit_intent input = true →
      (process_message extract genQ conclude st input).2 = earlyConclusionText st.candidate_data ∧
      (process_message extract genQ conclude st input).1.conversation_phase =
        st.conversation_phase) ∧
    (∀ (extract : CandidateInfo → CandidateInfo) (genQ : CandidateInfo → List String)
      (conclude : CandidateInfo → String) (st : AssistantState) (input : String),
      phaseRank st.conversation_phase ≤
        phaseRank (process_message extract genQ conclude st input).1.conversation_phase) := by
  constructor
  · intro extract genQ conclude st input h
    rw [process_message_exit extract genQ conclude st input h]
    exact ⟨rfl, rfl⟩
  · intro extract genQ conclude st input
    by_cases h : check_exit_intent input = true
    · rw [process_message_exit extract genQ conclude st input h]
    · have hb : check_exit_intent input = false := by
        rwa [Bool.not_eq_true] at h
      unfold process_message
      rw [hb]
      simpa using phaseDispatch_rank_mono genQ conclude
        { st with
          conversation_history := st.conversation_history ++ [("user", input)],
          candidate_data := extract st.candidate_data }

/-- C4 witness: the exit part of the theorem applied at a concrete Greeting
state and the input "bye". -/
theorem C4_exit_witness :
    check_exit_intent "bye" = true ∧
    (process_message id (fun _ => []) (fun _ => "") stGreeting "bye").2 =
      earlyConclusionText stGreeting.candidate_data :=
  ⟨by decide,
   (C4_exit_preemption_phase_unchanged.1 id (fun _ => []) (fun _ => "") stGreeting "bye"
     (by decide)).1⟩

/-- C4 counterexample: "bye" in the Greeting phase returns the early
conclusion, yet afterwards the phase is still Greeting, not Conclusion —
refuting "the session's phase is Conclusion afterwards". -/
theorem C4_counterexample_phase_not_conclusion :
    check_exit_intent "bye" = true ∧
    (process_message id (fun _ => []) (fun _ => "") stGreeting "bye").1.conversation_phase =
      "Greeting" ∧
    ("Greeting" : String) ≠ "Conclusion" := by
  decide

/-! ### Claim C8 -/

/-- C8: when the processed message matches exit intent, processing
terminates before extraction and phase dispatch — the question index, the
candidate profile, the question list and the phase are all unchanged, and
the early-conclusion response is returned instead of a further question. -/
theorem C8_exit_frame
    (extract : CandidateInfo → CandidateInfo) (genQ : CandidateInfo → List String)
    (conclude : CandidateInfo → String) (st : AssistantState) (input : String)
    (h : check_exit_intent input = true) :
    (process_message extract genQ conclude st input).1.current_question_index =
      st.current_question_index ∧
    (process_message extract genQ conclude st input).1.candidate_data = st.candidate_data ∧
    (process_message extract genQ conclude st input).1.questions = st.questions ∧
    (process_message extract genQ conclude st input).2 =
      earlyConclusionText st.candidate_data := by
  rw [process_message_exit extract genQ conclude st input h]
  exact ⟨rfl, rfl, rfl, rfl⟩

/-- C8 witness: the scenario of the claim — Questioning phase at question
index 1 of 5, input "stop" — with the frame facts instantiated. -/
theorem C8_exit_frame_witness :
    check_exit_intent "stop" = true ∧
    (process_message id (fun _ => []) (fun _ => "") stQuestioning5 "stop").1.current_question_index =
      stQuestioning5.current_question_index ∧
    (process_message id (fun _ => []) (fun _ => "") stQuestioning5 "stop").1.candidate_data =
      stQuestioning5.candidate_data ∧
    (process_message id (fun _ => []) (fun _ => "") stQuestioning5 "stop").2 =
      earlyConclusionText stQuestioning5.candidate_data :=
  ⟨by decide,
   (C8_exit_frame id (fun _ => []) (fun _ => "") stQuestioning5 "stop" (by decide)).1,
   (C8_exit_frame id (fun _ => []) (fun _ => "") stQuestioning5 "stop" (by decide)).2.1,
   (C8_exit_frame id (fun _ => []) (fun _ => "") stQuestioning5 "stop" (by decide)).2.2.2⟩

/-! ### Claim C2 -/

/-- C2 (amended): for experience that parses as a number the tiers are
`< 2 →` beginner, `< 5 →` intermediate, `≥ 5 →` advanced; a non-empty
unparsable experience falls into the `except` branch and yields
intermediate; but an absent (falsy) experience takes the `years = 0` path
and yields beginner, not intermediate. -/
theorem C2_difficulty_level_tiers :
    (∀ (tech exp : String) (q : ℚ), TechStackParser.parseFloat? exp = some q → exp ≠ "" →
      TechStackParser.get_difficulty_level tech exp =
        (if q < 2 then "beginner" else if q < 5 then "intermediate" else "advanced")) ∧
    (∀ tech exp : String, exp ≠ "" → TechStackParser.parseFloat? exp = none →
      TechStackParser.get_difficulty_level tech exp = "intermediate") ∧
    (∀ tech : String, TechStackParser.get_difficulty_level tech "" = "beginner") := by
  refine ⟨?_, ?_, ?_⟩
  · intro tech exp q hq hne
    unfold TechStackParser.get_difficulty_level
    have hb : (exp == "") = false := by
      rw [beq_eq_false_iff_ne]
      exact hne
    rw [hb]
    simp [hq]
  · intro tech exp hne hq
    unfold TechStackParser.get_difficulty_level
    have hb : (exp == "") = false := by
      rw [beq_eq_false_iff_ne]
      exact hne
    rw [hb]
    simp [hq]
  · intro tech
    rfl

/-- C2 witness: the parseable case at experience "3" (intermediate tier). -/
theorem C2_difficulty_witness :
    TechStackParser.parseFloat? "3" = some 3 ∧ ("3" : String) ≠ "" ∧
    TechStackParser.get_difficulty_level "python" "3" =
      (if (3 : ℚ) < 2 then "beginner" else if (3 : ℚ) < 5 then "intermediate" else "advanced") := by
  have hp : TechStackParser.parseFloat? "3" = some 3 := by
    rw [show TechStackParser.parseFloat? "3" =
        some (1 * ((TechStackParser.digitsVal ['3'] : Nat) : ℚ)) from rfl]
    norm_num [TechStackParser.digitsVal, show '3'.toNat = 51 from rfl]
  exact ⟨hp, by decide, C2_difficulty_level_tiers.1 "python" "3" 3 hp (by decide)⟩

/-- C2 counterexample: absent (empty) experience yields "beginner" — the
code treats a falsy experience as 0 years — refuting the claimed default
of "intermediate" for absent experience. -/
theorem C2_counterexample_empty_experience :
    TechStackParser.get_difficulty_level "python" "" = "beginner" ∧
    ("beginner" : String) ≠ "intermediate" := by
  decide

/-! ### Claim C9 -/

/-- C9 (amended): `parse("Python, react, C")` places "python" and "c" in
languages and "react" in frontend, and the length ≤ 2 keyword rule only
stops longer tokens from matching short keywords (token "css" or "react"
never matches keyword "c"); the single-character token "c" itself still
substring-matches longer keywords, so it additionally lands in frontend,
databases, devops and tools (via "react", "elasticsearch", "docker",
"confluence"), though not in backend; `parse("c++")` keeps the token
"c++" in languages and produces no "c" bucket. -/
theorem C9_parse_categorization :
    "python" ∈ TechStackParser.parseCategory "Python, react, C" "languages" ∧
    "react" ∈ TechStackParser.parseCategory "Python, react, C" "frontend" ∧
    "c" ∈ TechStackParser.parseCategory "Python, react, C" "languages" ∧
    TechStackParser.keywordMatch "css" "c" = false ∧
    TechStackParser.keywordMatch "react" "c" = false ∧
    TechStackParser.keywordMatch "c" "react" = true ∧
    TechStackParser.keywordMatch "c" "docker" = true ∧
    "c" ∈ TechStackParser.parseCategory "Python, react, C" "frontend" ∧
    "c" ∈ TechStackParser.parseCategory "Python, react, C" "databases" ∧
    "c" ∈ TechStackParser.parseCategory "Python, react, C" "devops" ∧
    "c" ∈ TechStackParser.parseCategory "Python, react, C" "tools" ∧
    "c" ∉ TechStackParser.parseCategory "Python, react, C" "backend" ∧
    TechStackParser.parse "c++" = [("languages", ["c++"])] := by
  decide

/-- C9 counterexample: the token "c" is matched into categories other than
languages — it appears in frontend and devops — refuting "c is
categorized under languages by exact match only, not matched into other
categories via substrings of longer keywords". -/
theorem C9_counterexample_c_in_frontend :
    "c" ∈ TechStackParser.parseCategory "Python, react, C" "frontend" ∧
    "c" ∈ TechStackParser.parseCategory "Python, react, C" "devops" := by
  decide

/-! ### Claim C3 -/

theorem fallback_map_entries_ok : ∀ p ∈ fallback_map, entryOkB p.2 = true := by
  decide

theorem entryOkB_pools {t : List (String × List String)} (h : entryOkB (.pools t) = true) :
    t ≠ [] ∧ ∀ pl ∈ t.map Prod.snd, poolOkB pl = true := by
  unfold entryOkB at h
  rw [Bool.and_eq_true] at h
  constructor
  · intro hnil
    subst hnil
    simp at h
  · intro pl hpl
    rw [List.mem_map] at hpl
    obtain ⟨x, hx, hxe⟩ := hpl
    have := List.all_eq_true.mp h.2 x hx
    rwa [hxe] at this

theorem resolveEntry_ok {e : FallbackEntry} {tiers : List (String × List String)}
    (hr : resolveEntry e = some tiers) (he : entryOkB e = true) :
    tiers ≠ [] ∧ ∀ pl ∈ tiers.map Prod.snd, poolOkB pl = true := by
  cases e with
  | pools t =>
    simp only [resolveEntry, Option.some.injEq] at hr
    subst hr
    exact entryOkB_pools he
  | aliasOf target =>
    simp only [resolveEntry] at hr
    cases hl : List.lookup target fallback_map with
    | none => rw [hl] at hr; exact absurd hr (by simp)
    | some e' =>
      rw [hl] at hr
      cases e' with
      | pools t =>
        simp only [Option.some.injEq] at hr
        subst hr
        have hmem := lookup_mem hl
        rw [List.mem_map] at hmem
        obtain ⟨p, hp, hpe⟩ := hmem
        have := fallback_map_entries_ok p hp
        rw [hpe] at this
        exact entryOkB_pools this
      | aliasOf t' => exact absurd hr (by simp)

theorem pickPool_mem (tiers : List (String × List String)) (d : String) (h : tiers ≠ []) :
    pickPool tiers d ∈ tiers.map Prod.snd := by
  unfold pickPool
  cases h1 : List.lookup d tiers with
  | some p => exact lookup_mem h1
  | none =>
    cases h2 : List.lookup "any" tiers with
    | some p => exact lookup_mem h2
    | none =>
      cases h3 : List.lookup "intermediate" tiers with
      | some p => exact lookup_mem h3
      | none =>
        cases tiers with
        | nil => exact absurd rfl h
        | cons t ts => simp [List.headD]

theorem findPool_ok (d tsl : String) :
    ∀ L : List (String × FallbackEntry), (∀ p ∈ L, entryOkB p.2 = true) →
      ∀ pool, findPool d tsl L = some pool → poolOkB pool = true := by
  intro L
  induction L with
  | nil => intro _ pool h; simp [findPool] at h
  | cons hd tl ih =>
    intro hok pool h
    obtain ⟨key, entry⟩ := hd
    rw [findPool] at h
    by_cases hin : TechStackParser.isInfixB key.toList tsl.toList = true
    · rw [if_pos hin] at h
      cases hr : resolveEntry entry with
      | some tiers =>
        rw [hr] at h
        simp only [Option.some.injEq] at h
        subst h
        have he : entryOkB entry = true := hok (key, entry) (List.mem_cons_self _ _)
        obtain ⟨hne, hall⟩ := resolveEntry_ok hr he
        exact hall _ (pickPool_mem tiers d hne)
      | none =>
        rw [hr] at h
        exact ih (fun p hp => hok p (List.mem_cons_of_mem _ hp)) pool h
    · rw [if_neg hin] at h
      exact ih (fun p hp => hok p (List.mem_cons_of_mem _ hp)) pool h

theorem str_ne_empty_of_isEmpty_false {s : String} (h : s.isEmpty = false) : s ≠ "" := by
  intro he
  rw [he] at h
  exact absurd h (by decide)

/-- C3 (amended): for every technology string and difficulty tier, and
every sampling/shuffling behaviour satisfying the `random.sample` /
`random.shuffle` contracts, the fallback question generator returns
exactly 3 non-empty strings — independent of generation-service
availability.  (Not every returned string contains a question mark; see
the counterexample.) -/
theorem C3_fallback_three_nonempty
    (sample : List String → Nat → List String) (shuffle : List String → List String)
    (tech_stack difficulty : String)
    (hs : SampleSpec sample) (hsh : ShuffleSpec shuffle) :
    (get_enhanced_fallback_questions sample shuffle tech_stack difficulty).length = 3 ∧
    ∀ q ∈ get_enhanced_fallback_questions sample shuffle tech_stack difficulty, q ≠ "" := by
  rw [show get_enhanced_fallback_questions sample shuffle tech_stack difficulty =
      (match findPool difficulty (pyLower tech_stack) fallback_map with
       | some pool => sample pool (min 3 pool.length)
       | none => (shuffle (default_questions tech_stack)).take 3) from rfl]
  cases hf : findPool difficulty (pyLower tech_stack) fallback_map with
  | some pool =>
    have hok := findPool_ok difficulty (pyLower tech_stack) fallback_map
      fallback_map_entries_ok pool hf
    unfold poolOkB at hok
    rw [Bool.and_eq_true, decide_eq_true_eq] at hok
    obtain ⟨h3, hall⟩ := hok
    obtain ⟨hlen, hmem⟩ := hs pool (min 3 pool.length)
    have hmin : min 3 pool.length = 3 := Nat.min_eq_left h3
    constructor
    · rw [hlen, hmin, Nat.min_eq_left h3]
    · intro q hq
      have := List.all_eq_true.mp hall q (hmem q hq)
      exact str_ne_empty_of_isEmpty_false (by simpa using this)
  | none =>
    have hp := hsh (default_questions tech_stack)
    constructor
    · rw [List.length_take, hp.length_eq]
      rfl
    · intro q hq
      have h1 : q ∈ shuffle (default_questions tech_stack) := List.take_subset _ _ hq
      have h2 : q ∈ default_questions tech_stack := hp.mem_iff.mp h1
      simp only [default_questions, List.mem_cons, List.not_mem_nil, or_false] at h2
      rcases h2 with h | h | h | h | h | h | h <;> subst h <;>
        exact append_ne_empty_left _ _ (append_ne_empty_left _ _ (by decide))

theorem sampleTake_spec : SampleSpec sampleTake := by
  intro l k
  exact ⟨List.length_take k l, fun x hx => List.take_subset k l hx⟩

theorem shuffleId_spec : ShuffleSpec shuffleId := fun l => List.Perm.refl l

/-- C3 witness: the theorem instantiated at the unrecognized technology
"fooscript123" with concrete valid sampling behaviour. -/
theorem C3_fallback_witness :
    (get_enhanced_fallback_questions sampleTake shuffleId "fooscript123" "intermediate").length = 3 ∧
    ∀ q ∈ get_enhanced_fallback_questions sampleTake shuffleId "fooscript123" "intermediate",
      q ≠ "" :=
  C3_fallback_three_nonempty sampleTake shuffleId "fooscript123" "intermediate"
    sampleTake_spec shuffleId_spec

/-- C3 counterexample: under the front-sampling behaviour (a legitimate
`random.sample` outcome), the first question returned for "fooscript123"
— which substring-matches the fallback key "c" — is a C question that
contains no question mark, refuting "each of which contains a question
mark". -/
theorem C3_counterexample_no_question_mark :
    (get_enhanced_fallback_questions sampleTake shuffleId "fooscript123" "intermediate").getD 0 "" =
      "Explain pointers and memory management in C." ∧
    "Explain pointers and memory management in C.".toList.contains '?' = false := by
  exact ⟨rfl, by decide⟩
